import Mathlib

/-!
Shallow embedding of the site-monitoring engine in `src/sitemon.sh`.

The core is the `sitemon` shell function (lines 65-137): one health state
machine per site, driven by the HTTP response code observed each cycle.
Shell variables become fields of `SiteState`; timestamps (`date` strings)
are abstracted to the cycle index at which they were taken; log and
Telegram side effects become a list of `Emission` values produced per
cycle. The supervisor's startup block (lines 36-52) is modelled as a
function on an abstract file system, and the SIGTERM trap (line 59) as a
function on a supervisor state.
-/

/-- Health status of a site: the shell variable `status` (1 = OK, 0 = FAIL). -/
inductive Status
  | up
  | down
deriving DecidableEq

/-- State owned by one `sitemon` instance: the shell locals `status`, `count`,
`lastOK`, `lastFAIL` and the variable `error_duration`. Timestamps are cycle
indices; the empty-string initial timestamps become `none`. `error_duration`
is unset initially in the shell but is only ever read after a failure cycle
has assigned it, so modelling it as `0` is faithful. -/
structure SiteState where
  status : Status
  count : Nat
  lastOK : Option Nat
  lastFAIL : Option Nat
  error_duration : Nat
deriving DecidableEq

/-- Messages emitted by one `sitemon` instance, with the data each line
interpolates (site name and literal text abstracted away, numeric and
timestamp payloads kept). -/
inductive Msg
  | monitoringStarted
  | lastFailReport (failTime : Nat) (duration : Nat)
  | backOnline (duration : Nat)
  | responseOK
  | responseFail (code : Nat)
  | alert (duration : Nat) (lastOK : Option Nat)
deriving DecidableEq

/-- One observable side effect of a cycle. `logLine m st` is a call to the
inner `log` function (lines 79-87): it appends to the per-site log file and
records the value of `status` at the moment of the call, because `log`
mirrors the line to Telegram exactly when `status` is 0 (DOWN). `notify m`
is a direct `send_telegram_message` call. -/
inductive Emission
  | logLine (m : Msg) (statusAtCall : Status)
  | notify (m : Msg)
deriving DecidableEq

/-- Telegram delivery rule: `log` mirrors a line iff `status` was 0 (DOWN)
at the call (line 84); a direct `send_telegram_message` always reaches the
sink (modulo the global enable switch, which is outside this model). -/
def sentToSink : Emission → Bool
  | Emission.logLine _ st => st == Status.down
  | Emission.notify _ => true

/-- One iteration of the `while true` loop of `sitemon` (lines 95-137),
given the poll interval, the current time `t` (cycle index), the state and
the observed HTTP response code. Returns the new state and the emissions of
the cycle, in program order. -/
def cycle (interval t : Nat) (s : SiteState) (respcode : Nat) :
    SiteState × List Emission :=
  if respcode = 200 then
    let recEms : List Emission :=
      if s.status = Status.down then
        match s.lastFAIL with
        | some ft =>
          [Emission.logLine (Msg.lastFailReport ft s.error_duration) Status.down,
           Emission.notify (Msg.backOnline s.error_duration)]
        | none => []
      else []
    ({ s with status := Status.up, count := 0, lastOK := some t },
     recEms ++ [Emission.logLine Msg.responseOK Status.up])
  else
    let failEms : List Emission :=
      if s.count < 4 then
        [Emission.logLine (Msg.responseFail respcode) Status.down]
      else []
    if (s.count + 1) % 12 = 0 then
      ({ status := Status.down, count := s.count + 1, lastOK := s.lastOK,
         lastFAIL := some t, error_duration := (s.count + 1) * interval },
       failEms ++ [Emission.logLine (Msg.alert ((s.count + 1) * interval) s.lastOK) Status.down])
    else
      ({ status := Status.down, count := s.count + 1, lastOK := s.lastOK,
         lastFAIL := s.lastFAIL, error_duration := (s.count + 1) * interval },
       failEms)

/-- Initial state of a `sitemon` instance (lines 66-92): status OK, empty
timestamps, zero consecutive failures. -/
def initState : SiteState :=
  { status := Status.up, count := 0, lastOK := none, lastFAIL := none,
    error_duration := 0 }

/-- Run the monitoring loop over a finite list of observed response codes,
starting at time `t` in state `s`; returns the final state and all
emissions in order. -/
def runFrom (interval : Nat) : Nat → SiteState → List Nat → SiteState × List Emission
  | _, s, [] => (s, [])
  | t, s, c :: rest =>
    ((runFrom interval (t + 1) (cycle interval t s c).1 rest).1,
     (cycle interval t s c).2 ++ (runFrom interval (t + 1) (cycle interval t s c).1 rest).2)

/-- Run the loop from the initial state at time 0. -/
def run (interval : Nat) (codes : List Nat) : SiteState × List Emission :=
  runFrom interval 0 initState codes

/-- State reached after processing `codes` from the initial state. -/
def reach (interval : Nat) (codes : List Nat) : SiteState :=
  (run interval codes).1

/-- Everything a `sitemon` instance emits while processing `codes`: the
pre-loop `log "Monitoring started"` call (line 90, status still 1) followed
by the per-cycle emissions. -/
def sitemonEms (interval : Nat) (codes : List Nat) : List Emission :=
  Emission.logLine Msg.monitoringStarted Status.up :: (run interval codes).2

/-- Recognise the "back online" Telegram notification (line 111). -/
def isBackOnlineB : Emission → Bool
  | Emission.notify (Msg.backOnline _) => true
  | _ => false

/-- Recognise the "Last fail ... lasted ..." recovery log line (line 109). -/
def isLastFailReportB : Emission → Bool
  | Emission.logLine (Msg.lastFailReport _ _) _ => true
  | _ => false

/-- Recognise the high-severity ALERT log line (line 132). -/
def isAlertB : Emission → Bool
  | Emission.logLine (Msg.alert _ _) _ => true
  | _ => false

/-- Recognise the ordinary failure log line (line 122). -/
def isFailLineB : Emission → Bool
  | Emission.logLine (Msg.responseFail _) _ => true
  | _ => false

/-- Recognise any log line (as opposed to a direct notification). -/
def isLogLineB : Emission → Bool
  | Emission.logLine _ _ => true
  | _ => false

/-- Number of consecutive non-200 results since the most recent 200 in a
result sequence (the quantity the spec says `count` tracks). -/
def trailingFailures (codes : List Nat) : Nat :=
  codes.foldl (fun acc c => if c = 200 then 0 else acc + 1) 0

/-! Per-cycle projection lemmas. -/

/-- The failure counter after a cycle: any 200 resets it to 0, any other
code increments it by exactly 1. -/
theorem cycle_count (interval t : Nat) (s : SiteState) (c : Nat) :
    (cycle interval t s c).1.count = if c = 200 then 0 else s.count + 1 := by
  unfold cycle
  by_cases h : c = 200 <;> simp [h]
  split <;> rfl

/-- The status after a cycle is UP iff the observed code was exactly 200. -/
theorem cycle_status (interval t : Nat) (s : SiteState) (c : Nat) :
    (cycle interval t s c).1.status = if c = 200 then Status.up else Status.down := by
  unfold cycle
  by_cases h : c = 200 <;> simp [h]
  split <;> rfl

/-- The `lastFAIL` timestamp after a cycle: assigned to the current time
exactly on failure cycles whose post-increment counter is divisible by 12,
otherwise left unchanged. -/
theorem cycle_lastFAIL (interval t : Nat) (s : SiteState) (c : Nat) :
    (cycle interval t s c).1.lastFAIL
      = if c ≠ 200 ∧ (s.count + 1) % 12 = 0 then some t else s.lastFAIL := by
  unfold cycle
  by_cases h : c = 200 <;> simp [h]
  by_cases h12 : (s.count + 1) % 12 = 0 <;> simp [h12]

/-- The `error_duration` after a cycle. -/
theorem cycle_error_duration (interval t : Nat) (s : SiteState) (c : Nat) :
    (cycle interval t s c).1.error_duration
      = if c = 200 then s.error_duration else (s.count + 1) * interval := by
  unfold cycle
  by_cases h : c = 200 <;> simp [h]
  split <;> rfl

/-! Run-level lemmas. -/

/-- The final state of a run over `c :: rest`. -/
theorem runFrom_cons (interval t : Nat) (s : SiteState) (c : Nat) (rest : List Nat) :
    (runFrom interval t s (c :: rest)).1
      = (runFrom interval (t + 1) (cycle interval t s c).1 rest).1 := rfl

/-- The failure counter after a run folds the reset/increment step over the
observed codes, starting from the incoming counter. -/
theorem runFrom_count (interval : Nat) (codes : List Nat) :
    ∀ (t : Nat) (s : SiteState),
      (runFrom interval t s codes).1.count
        = codes.foldl (fun acc c => if c = 200 then 0 else acc + 1) s.count := by
  induction codes with
  | nil => intro t s; rfl
  | cons c rest ih =>
    intro t s
    rw [runFrom_cons, ih, List.foldl_cons, cycle_count]

/-- A run preserves the invariant that the counter is zero whenever the
status is UP. -/
theorem runFrom_up_count (interval : Nat) (codes : List Nat) :
    ∀ (t : Nat) (s : SiteState), (s.status = Status.up → s.count = 0) →
      ((runFrom interval t s codes).1.status = Status.up →
        (runFrom interval t s codes).1.count = 0) := by
  induction codes with
  | nil => intro t s h; exact h
  | cons c rest ih =>
    intro t s _
    rw [runFrom_cons]
    apply ih
    intro hup
    rw [cycle_status] at hup
    rw [cycle_count]
    by_cases h : c = 200
    · simp [h]
    · simp [h] at hup

/-! Claim C4: success is classified iff the observed code is exactly 200. -/

/-- Claim C4: a probe counts as a success exactly when the observed HTTP
code equals 200 — the cycle leaves the site UP iff the code is 200 and DOWN
iff it is anything else; in particular another 2xx code such as 204, or a
redirect code such as 301, is classified as a failure. -/
theorem c4_success_iff_200 (interval t : Nat) (s : SiteState) (c : Nat) :
    ((cycle interval t s c).1.status = Status.up ↔ c = 200) ∧
    ((cycle interval t s c).1.status = Status.down ↔ c ≠ 200) ∧
    (cycle interval 0 initState 204).1.status = Status.down ∧
    (cycle interval 0 initState 301).1.status = Status.down := by
  refine ⟨?_, ?_, ?_, ?_⟩
  · rw [cycle_status]; by_cases h : c = 200 <;> simp [h]
  · rw [cycle_status]; by_cases h : c = 200 <;> simp [h]
  · rw [cycle_status]; simp
  · rw [cycle_status]; simp

/-! Claim C5: the counter counts consecutive non-200 results. -/

/-- Claim C5: after processing any result sequence, `count` equals the
number of consecutive non-200 results since the most recent 200; it is zero
whenever the status is UP; and each cycle either resets it to exactly 0 (on
a 200) or increments it by exactly 1 (on any other code). -/
theorem c5_consecutive_failures (interval : Nat) (codes : List Nat) :
    ((reach interval codes).count = trailingFailures codes) ∧
    ((reach interval codes).status = Status.up → (reach interval codes).count = 0) ∧
    (∀ t s c, (cycle interval t s c).1.count = if c = 200 then 0 else s.count + 1) := by
  refine ⟨?_, ?_, ?_⟩
  · exact runFrom_count interval codes 0 initState
  · exact runFrom_up_count interval codes 0 initState (fun _ => rfl)
  · intro t s c; exact cycle_count interval t s c

/-- Witness for C5 at a concrete run: the sequence 500,200,500,500 leaves
the counter at 2, and the all-success run 200,200 is UP with counter 0. -/
theorem c5_consecutive_failures_witness :
    (reach 5 [500, 200, 500, 500]).count = trailingFailures [500, 200, 500, 500] ∧
    (reach 5 [200, 200]).count = 0 :=
  ⟨(c5_consecutive_failures 5 [500, 200, 500, 500]).1,
   (c5_consecutive_failures 5 [200, 200]).2.1 (by decide)⟩

/-! Per-cycle emission characterisations. -/

/-- ALERT lines emitted by one cycle: exactly one, on failure cycles whose
post-increment counter is divisible by 12, stating duration
`(count + 1) * interval` and the stored `lastOK`; otherwise none. -/
theorem cycle_filter_alert (interval t : Nat) (s : SiteState) (c : Nat) :
    (cycle interval t s c).2.filter isAlertB
      = if c ≠ 200 ∧ (s.count + 1) % 12 = 0
        then [Emission.logLine (Msg.alert ((s.count + 1) * interval) s.lastOK) Status.down]
        else [] := by
  unfold cycle
  by_cases h : c = 200
  · simp only [h, if_pos, ite_true]
    simp only [h, ne_eq, not_true_eq_false, false_and, if_false]
    split
    · cases hLF : s.lastFAIL <;> simp [hLF, List.filter, isAlertB]
    · simp [List.filter, isAlertB]
  · simp only [h, if_neg, ite_false]
    by_cases h12 : (s.count + 1) % 12 = 0 <;>
      by_cases h4 : s.count < 4 <;>
        simp [h12, h4, h, List.filter, isAlertB]

/-- Ordinary failure lines emitted by one cycle: exactly one, carrying the
observed code, on failure cycles where the pre-increment counter is below
4; otherwise none. -/
theorem cycle_filter_failLine (interval t : Nat) (s : SiteState) (c : Nat) :
    (cycle interval t s c).2.filter isFailLineB
      = if c ≠ 200 ∧ s.count < 4
        then [Emission.logLine (Msg.responseFail c) Status.down]
        else [] := by
  unfold cycle
  by_cases h : c = 200
  · simp only [h, ne_eq, not_true_eq_false, false_and, if_false, ite_true]
    split
    · cases hLF : s.lastFAIL <;> simp [hLF, List.filter, isFailLineB]
    · simp [List.filter, isFailLineB]
  · simp only [h, if_neg, ite_false]
    by_cases h12 : (s.count + 1) % 12 = 0 <;>
      by_cases h4 : s.count < 4 <;>
        simp [h12, h4, h, List.filter, isFailLineB]

/-- A failure cycle past the fourth consecutive failure that is not an
alert cycle emits nothing at all. -/
theorem cycle_silent_failure (interval t : Nat) (s : SiteState) (c : Nat)
    (hc : c ≠ 200) (h4 : 4 ≤ s.count) (h12 : (s.count + 1) % 12 ≠ 0) :
    (cycle interval t s c).2 = [] := by
  unfold cycle
  simp [hc, h12, Nat.not_lt.mpr h4]

/-! Claim C2: the alert throttle. -/

/-- Claim C2: an ALERT log line is emitted on a cycle iff the failure
counter after that cycle's increment is positive and divisible by 12; when
emitted, it states cumulative downtime `count * interval`; and for interval
10 with 13 consecutive non-200 results, exactly one ALERT is emitted —
present after 12 failures, absent after 11 — with cumulative duration 120
seconds. -/
theorem c2_alert_iff (interval t : Nat) (s : SiteState) (c : Nat) :
    (((cycle interval t s c).2.filter isAlertB ≠ []) ↔
      (0 < (cycle interval t s c).1.count ∧ (cycle interval t s c).1.count % 12 = 0)) ∧
    ((cycle interval t s c).2.filter isAlertB = [] ∨
      (cycle interval t s c).2.filter isAlertB
        = [Emission.logLine (Msg.alert ((cycle interval t s c).1.count * interval) s.lastOK)
            Status.down]) ∧
    ((run 10 (List.replicate 13 500)).2.filter isAlertB
        = [Emission.logLine (Msg.alert 120 none) Status.down]) ∧
    ((run 10 (List.replicate 12 500)).2.filter isAlertB
        = [Emission.logLine (Msg.alert 120 none) Status.down]) ∧
    ((run 10 (List.replicate 11 500)).2.filter isAlertB = []) := by
  refine ⟨?_, ?_, by decide, by decide, by decide⟩
  · rw [cycle_filter_alert, cycle_count]
    by_cases h : c = 200
    · simp [h]
    · by_cases h12 : (s.count + 1) % 12 = 0 <;> simp [h, h12]
  · rw [cycle_filter_alert, cycle_count]
    by_cases h : c = 200
    · simp [h]
    · by_cases h12 : (s.count + 1) % 12 = 0 <;> simp [h, h12]

/-! Claim C6: bounded verbosity of ordinary failure lines. -/

/-- Claim C6: an ordinary (non-ALERT) failure log line carrying the
observed code is emitted iff the cycle's failure counter (after increment)
lies in [1,4]; a failure cycle beyond the fourth consecutive failure that
is not an alert cycle emits no log line at all. -/
theorem c6_ordinary_fail_lines (interval t : Nat) (s : SiteState) (c : Nat) :
    ((cycle interval t s c).2.filter isFailLineB
        = if c ≠ 200 ∧ s.count < 4
          then [Emission.logLine (Msg.responseFail c) Status.down]
          else []) ∧
    (((cycle interval t s c).2.filter isFailLineB ≠ []) ↔
      (1 ≤ (cycle interval t s c).1.count ∧ (cycle interval t s c).1.count ≤ 4)) ∧
    (c ≠ 200 → 4 ≤ s.count → (s.count + 1) % 12 ≠ 0 → (cycle interval t s c).2 = []) := by
  refine ⟨cycle_filter_failLine interval t s c, ?_, cycle_silent_failure interval t s c⟩
  rw [cycle_filter_failLine, cycle_count]
  by_cases h : c = 200
  · simp [h]
  · by_cases h4 : s.count < 4
    · simp [h, h4, Nat.succ_le_succ (Nat.le_of_lt_succ (Nat.lt_succ_of_lt h4))]
      omega
    · simp [h, h4]
      omega

/-- Witness for C6 at a concrete input: the fifth consecutive failure (the
counter already at 4, post-increment 5) emits nothing. -/
theorem c6_ordinary_fail_lines_witness :
    (cycle 5 4 { status := Status.down, count := 4, lastOK := none, lastFAIL := none,
                 error_duration := 20 } 500).2 = [] :=
  (c6_ordinary_fail_lines 5 4
      { status := Status.down, count := 4, lastOK := none, lastFAIL := none,
        error_duration := 20 } 500).2.2 (by decide) (by decide) (by decide)

/-! Claim C3: what a routine UP→UP success cycle actually does. -/

/-- Counterexample to C3 as stated: from the initial UP state, a successful
probe does emit a log line — the cycle's emission list is the singleton
`"$site response OK"` line (line 115 of `src/sitemon.sh`), not empty. -/
theorem c3_counterexample :
    initState.status = Status.up ∧
    (cycle 5 0 initState 200).2 = [Emission.logLine Msg.responseOK Status.up] ∧
    (cycle 5 0 initState 200).2 ≠ [] := by decide

/-- Claim C3 as amended: on a success cycle whose previous status is UP,
the state update touches only `lastOK` (and re-writes `count` with 0), and
the cycle emits exactly one log line — `"$site response OK"`, written to the
per-site log while the status is UP and therefore not mirrored to the
notification sink — and sends no notification. -/
theorem c3_amended (interval t : Nat) (s : SiteState) (hup : s.status = Status.up) :
    (cycle interval t s 200).1 = { s with count := 0, lastOK := some t } ∧
    (cycle interval t s 200).2 = [Emission.logLine Msg.responseOK Status.up] ∧
    (cycle interval t s 200).2.filter sentToSink = [] := by
  unfold cycle
  simp [hup, List.filter, sentToSink]

/-- Witness for C3 as amended, at the initial state. -/
theorem c3_amended_witness :
    (cycle 5 0 initState 200).2 = [Emission.logLine Msg.responseOK Status.up] :=
  (c3_amended 5 0 initState rfl).2.1

/-! The downtime-accounting invariant needed for the recovery message. -/

/-- After any cycle, if the site is DOWN then `error_duration` equals
`count * interval` (the failure branch recomputes it from the incremented
counter every time). -/
theorem cycle_durInv (interval t : Nat) (s : SiteState) (c : Nat) :
    (cycle interval t s c).1.status = Status.down →
      (cycle interval t s c).1.error_duration = (cycle interval t s c).1.count * interval := by
  rw [cycle_status, cycle_error_duration, cycle_count]
  by_cases h : c = 200 <;> simp [h]

/-- The invariant `status = DOWN → error_duration = count * interval` holds
in every state reachable by a run from any state satisfying it. -/
theorem runFrom_durInv (interval : Nat) (codes : List Nat) :
    ∀ (t : Nat) (s : SiteState),
      (s.status = Status.down → s.error_duration = s.count * interval) →
      ((runFrom interval t s codes).1.status = Status.down →
        (runFrom interval t s codes).1.error_duration
          = (runFrom interval t s codes).1.count * interval) := by
  induction codes with
  | nil => intro t s h; exact h
  | cons c rest ih =>
    intro t s _
    rw [runFrom_cons]
    exact ih (t + 1) _ (cycle_durInv interval t s c)

/-- Every reachable state satisfies the downtime-accounting invariant. -/
theorem reach_durInv (interval : Nat) (codes : List Nat) :
    (reach interval codes).status = Status.down →
      (reach interval codes).error_duration = (reach interval codes).count * interval :=
  runFrom_durInv interval codes 0 initState (by intro h; cases h)

/-! Claim C1: the recovery message on a DOWN→UP transition. -/

/-- Counterexample to C1 as stated: for interval 5 and the probe results
200,200,500,500,200 the monitor reaches DOWN before the final 200 — a
genuine DOWN→UP transition — yet the whole run emits no "back online"
notification and no recovery log line, because the recovery branch (lines
107-112 of `src/sitemon.sh`) is guarded by `lastFAIL` being non-empty, and
`lastFAIL` is only ever assigned on alert cycles (12 consecutive
failures). -/
theorem c1_counterexample :
    (reach 5 [200, 200, 500, 500]).status = Status.down ∧
    (sitemonEms 5 [200, 200, 500, 500, 200]).filter isBackOnlineB = [] ∧
    (sitemonEms 5 [200, 200, 500, 500, 200]).filter isLastFailReportB = [] := by decide

/-- Claim C1 as amended: on a DOWN→UP transition (a 200 result while DOWN),
the recovery log line and the "back online" notification are emitted iff
`lastFAIL` has been set (which only an alert cycle does); when `lastFAIL`
is unset the cycle emits neither, and when it is set the cycle emits
exactly one "back online" notification and one recovery log line, both
stating downtime `count_before_reset * interval`. -/
theorem c1_amended (interval : Nat) (codes : List Nat) (t : Nat)
    (hdown : (reach interval codes).status = Status.down) :
    ((reach interval codes).lastFAIL = none →
      (cycle interval t (reach interval codes) 200).2.filter isBackOnlineB = [] ∧
      (cycle interval t (reach interval codes) 200).2.filter isLastFailReportB = []) ∧
    (∀ ft, (reach interval codes).lastFAIL = some ft →
      (cycle interval t (reach interval codes) 200).2.filter isBackOnlineB
        = [Emission.notify (Msg.backOnline ((reach interval codes).count * interval))] ∧
      (cycle interval t (reach interval codes) 200).2.filter isLastFailReportB
        = [Emission.logLine
            (Msg.lastFailReport ft ((reach interval codes).count * interval))
            Status.down]) := by
  have hdur := reach_durInv interval codes hdown
  constructor
  · intro hLF
    unfold cycle
    simp [hdown, hLF, List.filter, isBackOnlineB, isLastFailReportB]
  · intro ft hLF
    unfold cycle
    simp [hdown, hLF, hdur, List.filter, isBackOnlineB, isLastFailReportB]

/-- Witness for C1 as amended: after 12 consecutive failures at interval 1,
`lastFAIL` is set (to cycle index 11) and the recovering 200 emits exactly
one "back online" notification with downtime `count * interval`. -/
theorem c1_amended_witness :
    (cycle 1 12 (reach 1 (List.replicate 12 500)) 200).2.filter isBackOnlineB
      = [Emission.notify (Msg.backOnline ((reach 1 (List.replicate 12 500)).count * 1))] :=
  ((c1_amended 1 (List.replicate 12 500) 12 (by decide)).2 11 (by decide)).1

/-! Claim C7: the notification-mirroring policy. -/

/-- In one cycle, every direct (non-log-line) notification is the "back
online" message. -/
theorem cycle_notify_backOnline (interval t : Nat) (s : SiteState) (c : Nat) :
    ∀ m, Emission.notify m ∈ (cycle interval t s c).2 → ∃ d, m = Msg.backOnline d := by
  unfold cycle
  by_cases h : c = 200
  · simp only [h, ite_true]
    split
    · cases hLF : s.lastFAIL <;> intro m hm <;> simp_all
    · intro m hm; simp_all
  · simp only [h, ite_false]
    by_cases h12 : (s.count + 1) % 12 = 0 <;>
      by_cases h4 : s.count < 4 <;>
        intro m hm <;> simp_all

/-- Over a whole run, every direct notification is the "back online"
message. -/
theorem runFrom_notify_backOnline (interval : Nat) (codes : List Nat) :
    ∀ (t : Nat) (s : SiteState), ∀ m, Emission.notify m ∈ (runFrom interval t s codes).2 →
      ∃ d, m = Msg.backOnline d := by
  induction codes with
  | nil => intro t s m hm; cases hm
  | cons c rest ih =>
    intro t s m hm
    unfold runFrom at hm
    rcases List.mem_append.mp hm with h1 | h2
    · exact cycle_notify_backOnline interval t s c m h1
    · exact ih (t + 1) _ m h2

/-- Claim C7: for every emission of a site monitor run (including the
pre-loop "Monitoring started" line): a log line recorded while the status
was DOWN is mirrored to the notification sink; a log line recorded while
the status was UP is never sent to the sink; and anything that reaches the
sink is either a DOWN-status log line or the explicit "back online"
recovery notification. -/
theorem c7_sink_policy (interval : Nat) (codes : List Nat) (e : Emission)
    (he : e ∈ sitemonEms interval codes) :
    (∀ m, e = Emission.logLine m Status.down → sentToSink e = true) ∧
    (∀ m, e = Emission.logLine m Status.up → sentToSink e = false) ∧
    (sentToSink e = true →
      (∃ m, e = Emission.logLine m Status.down) ∨
      (∃ d, e = Emission.notify (Msg.backOnline d))) := by
  refine ⟨?_, ?_, ?_⟩
  · intro m hm; subst hm; rfl
  · intro m hm; subst hm; rfl
  · intro hs
    cases e with
    | logLine m st =>
      left
      cases st with
      | up => cases hs
      | down => exact ⟨m, rfl⟩
    | notify m =>
      right
      rcases List.mem_cons.mp he with h1 | h2
      · cases h1
      · obtain ⟨d, hd⟩ := runFrom_notify_backOnline interval codes 0 initState m h2
        exact ⟨d, by rw [hd]⟩

/-- Witness for C7 at a concrete run: the single failure line of the run
over [500] was emitted while DOWN and is mirrored to the sink. -/
theorem c7_sink_policy_witness :
    sentToSink (Emission.logLine (Msg.responseFail 500) Status.down) = true :=
  (c7_sink_policy 5 [500] (Emission.logLine (Msg.responseFail 500) Status.down)
      (by decide)).1 (Msg.responseFail 500) rfl

/-! Claim C10: the lastFAIL timestamp and the recovery report gate. -/

/-- If `lastFAIL` is unset, a cycle emits neither the "Last fail" recovery
log line nor the "back online" notification. -/
theorem cycle_recovery_needs_lastFAIL (interval t : Nat) (s : SiteState) (c : Nat)
    (hLF : s.lastFAIL = none) :
    (cycle interval t s c).2.filter isLastFailReportB = [] ∧
    (cycle interval t s c).2.filter isBackOnlineB = [] := by
  unfold cycle
  by_cases h : c = 200
  · simp only [h, ite_true]
    split
    · simp [hLF, List.filter, isLastFailReportB, isBackOnlineB]
    · simp [List.filter, isLastFailReportB, isBackOnlineB]
  · simp only [h, ite_false]
    by_cases h12 : (s.count + 1) % 12 = 0 <;>
      by_cases h4 : s.count < 4 <;>
        simp [h12, h4, List.filter, isLastFailReportB, isBackOnlineB]

/-- Once `lastFAIL` is set it stays set across any further run. -/
theorem runFrom_lastFAIL_persists (interval : Nat) (codes : List Nat) :
    ∀ (t : Nat) (s : SiteState), s.lastFAIL ≠ none →
      (runFrom interval t s codes).1.lastFAIL ≠ none := by
  induction codes with
  | nil => intro t s h; exact h
  | cons c rest ih =>
    intro t s h
    rw [runFrom_cons]
    apply ih
    rw [cycle_lastFAIL]
    split
    · exact Option.some_ne_none t
    · exact h

/-- If a run starting with `lastFAIL` unset ends with it set, then some
prefix of the run reaches a failure counter of at least 12. -/
theorem runFrom_lastFAIL_origin (interval : Nat) (codes : List Nat) :
    ∀ (t : Nat) (s : SiteState),
      (runFrom interval t s codes).1.lastFAIL ≠ none →
      s.lastFAIL ≠ none ∨ ∃ n, 12 ≤ (runFrom interval t s (codes.take n)).1.count := by
  induction codes with
  | nil => intro t s h; exact Or.inl h
  | cons c rest ih =>
    intro t s h
    rw [runFrom_cons] at h
    rcases ih (t + 1) (cycle interval t s c).1 h with h1 | ⟨n, hn⟩
    · rw [cycle_lastFAIL] at h1
      by_cases hcond : c ≠ 200 ∧ (s.count + 1) % 12 = 0
      · right
        refine ⟨1, ?_⟩
        have : (runFrom interval t s ((c :: rest).take 1)).1 = (cycle interval t s c).1 := rfl
        rw [this, cycle_count, if_neg hcond.1]
        omega
      · left
        rw [if_neg hcond] at h1
        exact h1
    · right
      refine ⟨n + 1, ?_⟩
      have : (runFrom interval t s ((c :: rest).take (n + 1))).1
          = (runFrom interval (t + 1) (cycle interval t s c).1 (rest.take n)).1 := rfl
      rw [this]
      exact hn

/-- Claim C10: `lastFAIL` is assigned only on failure cycles whose
post-increment counter is a positive multiple of 12 and is never cleared
afterwards; a cycle can emit the "Last fail" recovery report or the "back
online" notification only if `lastFAIL` is set; and any run from the
initial state that ends with `lastFAIL` set has a prefix on which the
failure counter reached 12. -/
theorem c10_lastFAIL_gate (interval : Nat) :
    (∀ t s c, (cycle interval t s c).1.lastFAIL
        = if c ≠ 200 ∧ (s.count + 1) % 12 = 0 then some t else s.lastFAIL) ∧
    (∀ t (s : SiteState) codes, s.lastFAIL ≠ none →
        (runFrom interval t s codes).1.lastFAIL ≠ none) ∧
    (∀ t s c, ((cycle interval t s c).2.filter isLastFailReportB ≠ [] ∨
        (cycle interval t s c).2.filter isBackOnlineB ≠ []) → s.lastFAIL ≠ none) ∧
    (∀ codes, (reach interval codes).lastFAIL ≠ none →
        ∃ n, 12 ≤ (reach interval (codes.take n)).count) := by
  refine ⟨fun t s c => cycle_lastFAIL interval t s c, ?_, ?_, ?_⟩
  · intro t s codes h
    exact runFrom_lastFAIL_persists interval codes t s h
  · intro t s c h
    intro hLF
    rcases cycle_recovery_needs_lastFAIL interval t s c hLF with ⟨h1, h2⟩
    rcases h with h | h
    · exact h h1
    · exact h h2
  · intro codes h
    rcases runFrom_lastFAIL_origin interval codes 0 initState h with h1 | h2
    · exact absurd rfl h1
    · exact h2

/-- Witness for C10 at concrete inputs: after the alert cycle of a
12-failure run at interval 1, `lastFAIL` stays set across two further
successful cycles, and a prefix with counter at least 12 exists. -/
theorem c10_lastFAIL_gate_witness :
    (runFrom 1 12 (reach 1 (List.replicate 12 500)) [200, 200]).1.lastFAIL ≠ none :=
  (c10_lastFAIL_gate 1).2.1 12 (reach 1 (List.replicate 12 500)) [200, 200] (by decide)

/-! Startup block (lines 36-52) and SIGTERM trap (line 59). -/

/-- A line of a log file: the blank line a bare `echo` writes, the
"Script is started. PID $$" record, or arbitrary pre-existing content
(tagged by a number). -/
inductive Line
  | blank
  | started (pid : Nat)
  | plain (tag : Nat)
deriving DecidableEq

/-- The files the startup block touches: the aggregate log `LOG_FILE` and
the per-site logs `LOG_DIR/<site>.log`, each as its list of lines. -/
structure FS where
  agg : List Line
  siteLogs : List (List Line)
deriving DecidableEq

/-- The startup block of `src/sitemon.sh` (lines 36-52), as its effect on
the log files. When `flush_log_on_start` is 0, per-site logs are untouched
and the "started" record goes through
`log_service ... | tee "$LOG_FILE"` (line 40): the inner `tee -a` appends
the record while the outer `tee` (no `-a`) truncates `LOG_FILE` and writes
nothing; the two race, so the result is either just the record (outer
truncation first) or an empty file (inner append first), selected here by
`outerTeeFirst` — in both orders the previous aggregate content is lost.
Otherwise each per-site log is overwritten by a bare `echo >file` (line
47), which writes a single blank line, and the "started" record is written
by `tee "$LOG_FILE"` without `-a` (line 50), truncating the aggregate log
before writing. -/
def startup (flush_log_on_start : Nat) (pid : Nat) (outerTeeFirst : Bool) (fs : FS) : FS :=
  if flush_log_on_start = 0 then
    { fs with agg := if outerTeeFirst then [Line.started pid] else [] }
  else
    { agg := [Line.started pid],
      siteLogs := fs.siteLogs.map (fun _ => [Line.blank]) }

/-- Lifecycle messages the supervisor writes through `log_service`. -/
inductive SMsg
  | scriptStarted
  | shutdown
deriving DecidableEq

/-- Supervisor state: one liveness flag per spawned `sitemon` child
process, the lifecycle lines of the aggregate log, and the process exit
code (none while running). -/
structure SupState where
  alive : List Bool
  aggLog : List SMsg
  exitCode : Option Nat
deriving DecidableEq

/-- The SIGTERM trap (line 59 of `src/sitemon.sh`):
`log_service "Received signal SIGTERM..."` appends one shutdown line,
`pkill -P $$` terminates every direct child process, and `exit 0` ends the
script with success, without waiting for in-flight work. -/
def sigtermTrap (s : SupState) : SupState :=
  { alive := s.alive.map (fun _ => false),
    aggLog := s.aggLog ++ [SMsg.shutdown],
    exitCode := some 0 }

/-- Modelled from the spec: a child monitor can issue a new probe only
while its process is alive and the supervisor has not exited — `pkill`-ed
processes run no further loop iterations. -/
def canProbe (s : SupState) (i : Nat) : Bool :=
  s.exitCode == none && s.alive.getD i false

/-- Number of shutdown lines in the aggregate log. -/
def countShutdown (l : List SMsg) : Nat :=
  l.countP (fun m => m == SMsg.shutdown)

/-! Claim C8: the startup side effect on the log files. -/

/-- Claim C8 evaluated at the failing input: with truncate-on-start set
and a per-site log holding prior content, the startup block leaves that
log as a single blank line — not empty, contradicting both the claim and
the code's own comment "Create an empty file" — and overwrites the
aggregate log with the "started" record instead of appending it; and in
the non-truncating branch the per-site logs are indeed untouched, but the
"started" record still does not end up appended after the prior aggregate
content in either order of the racing `tee` processes. -/
theorem c8_startup_eval :
    (startup 1 42 true { agg := [Line.plain 0], siteLogs := [[Line.plain 1, Line.plain 2]] }).siteLogs
      = [[Line.blank]] ∧
    ([Line.blank] : List Line) ≠ [] ∧
    (startup 1 42 true { agg := [Line.plain 0], siteLogs := [[Line.plain 1, Line.plain 2]] }).agg
      = [Line.started 42] ∧
    (startup 1 42 true { agg := [Line.plain 0], siteLogs := [[Line.plain 1, Line.plain 2]] }).agg
      ≠ [Line.plain 0, Line.started 42] ∧
    (∀ b, (startup 0 42 b { agg := [Line.plain 0], siteLogs := [[Line.plain 1]] }).siteLogs
      = [[Line.plain 1]]) ∧
    (∀ b, (startup 0 42 b { agg := [Line.plain 0], siteLogs := [[Line.plain 1]] }).agg
      ≠ [Line.plain 0, Line.started 42]) :=
  ⟨by decide, by decide, by decide, by decide,
   fun b => by cases b <;> decide, fun b => by cases b <;> decide⟩

/-! Claim C9: the SIGTERM shutdown path. -/

/-- Mapping every liveness flag to false leaves no position reading true. -/
theorem getD_map_false (l : List Bool) :
    ∀ i, (l.map (fun _ => false)).getD i false = false := by
  induction l with
  | nil => intro i; rfl
  | cons b rest ih =>
    intro i
    cases i with
    | zero => rfl
    | succ n => exact ih n

/-- Claim C9: the SIGTERM trap appends exactly one shutdown log line,
terminates every child monitor — so no child can issue a new probe
afterwards — and exits with success status; in particular with 3 active
sites and no prior shutdown line, the log ends with exactly one shutdown
line and all three children are stopped. -/
theorem c9_sigterm_shutdown (s : SupState) :
    countShutdown (sigtermTrap s).aggLog = countShutdown s.aggLog + 1 ∧
    (∀ i, (sigtermTrap s).alive.getD i false = false) ∧
    (∀ i, canProbe (sigtermTrap s) i = false) ∧
    (sigtermTrap s).exitCode = some 0 ∧
    countShutdown (sigtermTrap
        { alive := [true, true, true], aggLog := [SMsg.scriptStarted],
          exitCode := none }).aggLog = 1 ∧
    (sigtermTrap
        { alive := [true, true, true], aggLog := [SMsg.scriptStarted],
          exitCode := none }).alive = [false, false, false] := by
  refine ⟨?_, ?_, ?_, rfl, by decide, by decide⟩
  · simp [sigtermTrap, countShutdown]
  · intro i; exact getD_map_false s.alive i
  · intro i
    simp [canProbe, sigtermTrap]
